import Mathlib

/-!
Verification model of the Participant Session Orchestrator in
`src/voice_agent/runtime/events.py` (class `ParticipantGreeter`).

The orchestrator runs on a single-threaded cooperative event loop: room
event callbacks execute synchronously, and each `await` in a spawned task
is a suspension point at which other callbacks or tasks may run.  We embed
it as a small-step machine: the state carries the room snapshot, the
`greeted` / `inflight` identity sets, the link target, the pending
shutdown task, and the program counter of every spawned initialization
task; each `Action` is one synchronous segment of execution (an event
callback, a reconciliation pass, or the resumption of a task from one of
its suspension points).  Schedules (lists of actions) enumerate the
interleavings the event loop can produce.
-/

namespace VoiceAgent

/-- Participant kinds, mirroring `livekit.rtc.ParticipantKind` as used by
`_handle_participant_connected` (standard / SIP are the defaults; other
constructors stand for the remaining enum values). -/
inductive PKind
  | standard
  | sip
  | agent
  | egress
  | other
deriving DecidableEq, Repr

/-- A remote participant as observed by the orchestrator:
`identity` (may be absent, the handlers `getattr(participant, "identity", None)`),
the `lk.publish_on_behalf` attribute value (absent = `none`, matching
`attributes.get(...)` returning `None`), its `kind`, and `is_connected`. -/
structure Participant where
  identity : Option String
  publishOnBehalf : Option String
  kind : PKind
  isConnected : Bool
deriving DecidableEq, Repr, BEq

/-- Program counter of one `_initialize_participant` task, labelling the
suspension points of the coroutine:
`created` = spawned by `asyncio.create_task`, not yet started;
`mediaWait` = suspended inside `_wait_for_media_ready` (line 171);
`postMedia` = the media wait concluded (success or timeout) and the task
is about to run the synchronous block at lines 182-199 (greeted check,
inflight add, entry into `_send_greeting`);
`delayWait` = suspended at the pre-greeting `asyncio.sleep` (line 194);
`greeting` = suspended inside `_send_greeting` (playout / backoff awaits);
`finished` = the coroutine returned. -/
inductive TaskPhase
  | created
  | mediaWait
  | postMedia
  | delayWait
  | greeting
  | finished
deriving DecidableEq, Repr

/-- Constructor arguments of `ParticipantGreeter` that the claims depend
on, plus the initially configured RoomIO target identity
(`_participant_identity`).  `greetingDelayPos` is `greeting_delay > 0`
(the truthiness test at line 193); `localIdentity` is
`ctx.room.local_participant.identity`. -/
structure Config where
  broadcastMode : Bool
  terminateOnEmpty : Bool
  closeRoomOnEmpty : Bool
  greetingDelayPos : Bool
  localIdentity : Option String
  configuredKinds : Option (List PKind)
  targetIdentity : Option String
deriving Repr

/-- State of the orchestrator plus the external room snapshot and ghost logs.
`greeted` embeds `_greeted_identities`, `inflight` embeds
`_inflight_initializations` (Python sets, kept as duplicate-free lists),
`linked` / `target` embed the RoomIO link state
(`linked_participant` identity and `_participant_identity`),
`shutdownPending` embeds `_shutdown_task is not None`,
`tasks` the spawned initialization coroutines with their phases,
`delivered` / `disconnectLog` are ghost logs recording each successful
greeting delivery and each identified disconnect event. -/
structure GState where
  room : List Participant
  greeted : List String
  inflight : List String
  linked : Option String
  target : Option String
  shutdownPending : Bool
  firedCount : Nat
  tasks : List (Nat × String × TaskPhase)
  nextTid : Nat
  delivered : List String
  disconnectLog : List String
deriving DecidableEq, Repr

/-- Python `set.add`: append the identity unless already present. -/
def insertId (l : List String) (id : String) : List String :=
  if id ∈ l then l else l ++ [id]

/-- Python `set.discard`: remove the identity. -/
def eraseId (l : List String) (id : String) : List String :=
  l.filter (fun x => x != id)

/-- The allow-list computed at lines 128-137: a configured non-empty
`participant_kinds` list, else the default standard + SIP set. -/
def allowedKinds (cfg : Config) : List PKind :=
  match cfg.configuredKinds with
  | some ks => if ks.isEmpty then [PKind.standard, PKind.sip] else ks
  | none => [PKind.standard, PKind.sip]

/-- `room_io.set_participant(identity)` (line 159): the link follows the
single participant (spec §4.1: the controller sets `Single(identity)`). -/
def set_participant (s : GState) (id : String) : GState :=
  { s with linked := some id, target := some id }

/-- `asyncio.create_task(self._initialize_participant(identity))`
(line 161): registers a fresh task in phase `created`. -/
def spawn_task (s : GState) (id : String) : GState :=
  { s with tasks := s.tasks ++ [(s.nextTid, id, TaskPhase.created)],
           nextTid := s.nextTid + 1 }

/-- `_handle_participant_connected` (lines 113-161), a synchronous
callback: cancel any pending shutdown task first (lines 114-116,
unconditionally), then ignore identity-less participants, self
publish-on-behalf streams, and disallowed kinds; otherwise follow when
nobody is linked, the linked identity matches, the configured target is
unset, or the configured target matches; narrowing the link is skipped in
broadcast mode; finally spawn the initialization task. -/
def handle_participant_connected (cfg : Config) (s : GState) (p : Participant) : GState :=
  let s1 : GState := { s with shutdownPending := false }
  match p.identity with
  | none => s1
  | some id =>
    if p.publishOnBehalf = cfg.localIdentity then s1
    else if p.kind ∉ allowedKinds cfg then s1
    else if s1.linked = none ∨ s1.linked = some id ∨ s1.target = none ∨ s1.target = some id then
      spawn_task (if cfg.broadcastMode then s1 else set_participant s1 id) id
    else s1

/-- `remote_participants` filtered by `is_connected`
(lines 319-323 and 334-338). -/
def connectedParticipants (s : GState) : List Participant :=
  s.room.filter (fun q => q.isConnected)

/-- `_maybe_schedule_shutdown` (lines 315-328): schedule the debounced
shutdown task only if the feature is enabled, the connected-participant
count is zero, and no shutdown task is already pending. -/
def maybe_schedule_shutdown (cfg : Config) (s : GState) : GState :=
  if cfg.terminateOnEmpty = false then s
  else if (connectedParticipants s).isEmpty = false then s
  else if s.shutdownPending then s
  else { s with shutdownPending := true }

/-- `_handle_participant_disconnected` (lines 299-313), a synchronous
callback: return untouched when the participant has no identity;
otherwise discard the identity from `greeted` and `inflight`, return
early when no participant is linked, unset the link when the linked
identity matches, and evaluate shutdown scheduling. -/
def handle_participant_disconnected (cfg : Config) (s : GState) (p : Participant) : GState :=
  match p.identity with
  | none => s
  | some id =>
    let s1 : GState := { s with greeted := eraseId s.greeted id,
                                inflight := eraseId s.inflight id }
    match s1.linked with
    | none => s1
    | some lid =>
      maybe_schedule_shutdown cfg
        (if lid = id then { s1 with linked := none, target := none } else s1)

/-- One iteration of the body of the reconciliation loop in
`_poll_remote_participants` (lines 98-106): skip falsy identities and
identities already greeted or inflight, else re-drive the connected
handler. -/
def sweep_step (cfg : Config) (acc : GState) (p : Participant) : GState :=
  match p.identity with
  | none => acc
  | some id =>
    if id = "" then acc
    else if id ∈ acc.greeted ∨ id ∈ acc.inflight then acc
    else handle_participant_connected cfg acc p

/-- One full reconciliation pass over the room snapshot taken at the top
of the loop (line 97). -/
def poll_pass (cfg : Config) (s : GState) : GState :=
  s.room.foldl (sweep_step cfg) s

/-- Look up a spawned task by its id. -/
def findTask? (tasks : List (Nat × String × TaskPhase)) (tid : Nat) :
    Option (String × TaskPhase) :=
  (tasks.find? (fun t => t.1 == tid)).map (fun t => (t.2.1, t.2.2))

/-- Update the phase of the task with the given id. -/
def setPhase (tasks : List (Nat × String × TaskPhase)) (tid : Nat) (ph : TaskPhase) :
    List (Nat × String × TaskPhase) :=
  tasks.map (fun t => if t.1 == tid then (t.1, t.2.1, ph) else t)

/-- Phase of a task in a state. -/
def taskOf (s : GState) (tid : Nat) : Option (String × TaskPhase) :=
  findTask? s.tasks tid

/-- First run of a created task: the synchronous prefix of
`_initialize_participant` (lines 164-171: best-effort audio enable, no
shared-state mutation) up to the suspension inside
`_wait_for_media_ready`. -/
def step_run_task (s : GState) (tid : Nat) : GState :=
  match findTask? s.tasks tid with
  | some (_, TaskPhase.created) => { s with tasks := setPhase s.tasks tid TaskPhase.mediaWait }
  | _ => s

/-- The media wait concludes with outcome `_ok` (success, or the
`TimeoutError` caught at lines 173-175).  Both branches of the
`try/except` only log and fall through — the continuation is identical,
so the outcome does not affect the state. -/
def step_media_done (s : GState) (tid : Nat) (_ok : Bool) : GState :=
  match findTask? s.tasks tid with
  | some (_, TaskPhase.mediaWait) => { s with tasks := setPhase s.tasks tid TaskPhase.postMedia }
  | _ => s

/-- The synchronous block at lines 182-200: re-enable audio (no shared
state), return if the identity is already greeted (line 188), add it to
`inflight` (line 191), then either suspend at the pre-greeting delay
(line 194) or enter `_send_greeting` up to its first await. -/
def step_proceed (cfg : Config) (s : GState) (tid : Nat) : GState :=
  match findTask? s.tasks tid with
  | some (id, TaskPhase.postMedia) =>
    if id ∈ s.greeted then { s with tasks := setPhase s.tasks tid TaskPhase.finished }
    else if cfg.greetingDelayPos then
      { s with inflight := insertId s.inflight id,
               tasks := setPhase s.tasks tid TaskPhase.delayWait }
    else
      { s with inflight := insertId s.inflight id,
               tasks := setPhase s.tasks tid TaskPhase.greeting }
  | _ => s

/-- The pre-greeting delay elapses; the task enters `_send_greeting`. -/
def step_delay_done (s : GState) (tid : Nat) : GState :=
  match findTask? s.tasks tid with
  | some (_, TaskPhase.delayWait) => { s with tasks := setPhase s.tasks tid TaskPhase.greeting }
  | _ => s

/-- `_send_greeting` returns `ok` and the tail of
`_initialize_participant` runs (lines 200-203, one synchronous block):
on success add the identity to `greeted`, then discard it from
`inflight` unconditionally. -/
def step_greet_done (s : GState) (tid : Nat) (ok : Bool) : GState :=
  match findTask? s.tasks tid with
  | some (id, TaskPhase.greeting) =>
    if ok then
      { s with greeted := insertId s.greeted id,
               delivered := s.delivered ++ [id],
               inflight := eraseId s.inflight id,
               tasks := setPhase s.tasks tid TaskPhase.finished }
    else
      { s with inflight := eraseId s.inflight id,
               tasks := setPhase s.tasks tid TaskPhase.finished }
  | _ => s

/-- The shutdown task's grace delay elapses (`_shutdown`, lines 330-360):
re-snapshot the connected participants; if any remain, end without side
effect; if none remain, signal job shutdown (`ctx.shutdown`, counted in
`firedCount`); either way the pending handle is cleared in the
`finally`. -/
def step_shutdown_elapsed (s : GState) : GState :=
  if s.shutdownPending = false then s
  else if (connectedParticipants s).isEmpty then
    { s with shutdownPending := false, firedCount := s.firedCount + 1 }
  else { s with shutdownPending := false }

/-- One synchronous segment of event-loop execution: a room event
callback (the room snapshot is updated by the external room before the
callback fires), a reconciliation pass, or the resumption of a task from
one of its suspension points. -/
inductive Action
  | connectEvent (p : Participant)
  | disconnectEvent (p : Participant)
  | sweep
  | runTask (tid : Nat)
  | mediaDone (tid : Nat) (ok : Bool)
  | proceed (tid : Nat)
  | delayDone (tid : Nat)
  | greetDone (tid : Nat) (ok : Bool)
  | shutdownElapsed
deriving Repr

/-- The small-step transition of the machine. -/
def step (cfg : Config) (s : GState) : Action → GState
  | Action.connectEvent p =>
      handle_participant_connected cfg { s with room := s.room ++ [p] } p
  | Action.disconnectEvent p =>
      handle_participant_disconnected cfg
        { s with room := s.room.erase p,
                 disconnectLog :=
                   match p.identity with
                   | some id => s.disconnectLog ++ [id]
                   | none => s.disconnectLog } p
  | Action.sweep => poll_pass cfg s
  | Action.runTask tid => step_run_task s tid
  | Action.mediaDone tid ok => step_media_done s tid ok
  | Action.proceed tid => step_proceed cfg s tid
  | Action.delayDone tid => step_delay_done s tid
  | Action.greetDone tid ok => step_greet_done s tid ok
  | Action.shutdownElapsed => step_shutdown_elapsed s

/-- Execute a schedule. -/
def run (cfg : Config) (s : GState) (acts : List Action) : GState :=
  acts.foldl (step cfg)  s

/-- Session start: empty room, empty registries, nothing linked, the
RoomIO target identity as configured. -/
def initState (cfg : Config) : GState :=
  { room := [], greeted := [], inflight := [], linked := none,
    target := cfg.targetIdentity, shutdownPending := false, firedCount := 0,
    tasks := [], nextTid := 0, delivered := [], disconnectLog := [] }

/-! ### Greeting deliverer (`_send_greeting`, lines 262-297) -/

/-- Outcome of one delivery attempt (the `try` body at lines 272-278):
`ok` = playout completed, `retryableTimeout` = `RealtimeError` raised,
`fatal` = any other exception. -/
inductive AttemptOutcome
  | ok
  | retryableTimeout
  | fatal
deriving DecidableEq, Repr

/-- How `_send_greeting` returned: `delivered a viaFallback` = `return
True` at attempt `a`, which used `session.say` when `viaFallback` and
`session.generate_reply` otherwise; `failedFatal a` = the non-retryable
`return False` (line 296) at attempt `a`; `failedExhausted a` = the
`return False` after a retryable failure with attempts exhausted
(line 292); `failedLoopEnd` = the `return False` after the loop
(line 297, unreachable for `max_attempts = 3`). -/
inductive GreetResult
  | delivered (attempt : Nat) (viaFallback : Bool)
  | failedFatal (attempt : Nat)
  | failedExhausted (attempt : Nat)
  | failedLoopEnd
deriving DecidableEq, Repr

/-- The retry loop of `_send_greeting`, iterating over the remaining
attempt numbers with the `fallback_used` flag: on `RealtimeError`, the
penultimate attempt (`attempt == max_attempts - 1`) without fallback
switches to the fallback path and continues; at or past the last attempt
the function returns `False`; otherwise it backs off and retries. -/
def greetLoop (script : Nat → AttemptOutcome) (maxAttempts : Nat) :
    List Nat → Bool → GreetResult
  | [], _ => GreetResult.failedLoopEnd
  | a :: rest, fallbackUsed =>
    match script a with
    | AttemptOutcome.ok => GreetResult.delivered a fallbackUsed
    | AttemptOutcome.fatal => GreetResult.failedFatal a
    | AttemptOutcome.retryableTimeout =>
      if a = maxAttempts - 1 ∧ fallbackUsed = false then
        greetLoop script maxAttempts rest true
      else if maxAttempts ≤ a then GreetResult.failedExhausted a
      else greetLoop script maxAttempts rest fallbackUsed

/-- `_send_greeting` with `max_attempts = 3` (line 269), driven by a
script giving the outcome of each attempt. -/
def send_greeting (script : Nat → AttemptOutcome) : GreetResult :=
  greetLoop script 3 [1, 2, 3] false

/-- The attempt index at which `_send_greeting` returned (the loop bound
for the after-loop return). -/
def attemptOf : GreetResult → Nat
  | GreetResult.delivered a _ => a
  | GreetResult.failedFatal a => a
  | GreetResult.failedExhausted a => a
  | GreetResult.failedLoopEnd => 3

/-! ### Reconciliation loop structure (`_poll_remote_participants`,
lines 89-111) -/

/-- Behaviour of one scheduled pass of the reconciliation loop: either
the pass body runs normally, or it raises an unexpected (non
cancellation) exception. -/
inductive PassOutcome
  | normal
  | raisesUnexpected
deriving DecidableEq, Repr

/-- How many of the scheduled passes actually execute.  The
`try/except Exception` wraps the *whole* `while True` loop (lines
94-111): a pass that raises is caught outside the loop, the handler logs,
sleeps one interval, and the coroutine returns — no later pass runs. -/
def poll_passes_executed : List PassOutcome → Nat
  | [] => 0
  | PassOutcome.normal :: rest => 1 + poll_passes_executed rest
  | PassOutcome.raisesUnexpected :: _ => 1

/-! ### Concrete participants, configurations and schedules -/

/-- A plain standard participant "alice". -/
def alice : Participant :=
  { identity := some "alice", publishOnBehalf := none, kind := PKind.standard,
    isConnected := true }

/-- A participant carrying no identity attribute. -/
def ghost : Participant :=
  { identity := none, publishOnBehalf := none, kind := PKind.standard,
    isConnected := true }

/-- A participant the connect filters reject: it publishes on behalf of
the agent itself. -/
def selfStream : Participant :=
  { identity := some "forwarder", publishOnBehalf := some "agent",
    kind := PKind.standard, isConnected := true }

/-- Single-target configuration: no broadcast, no terminate-on-empty, no
pre-greeting delay, defaults everywhere. -/
def cfgA : Config :=
  { broadcastMode := false, terminateOnEmpty := false, closeRoomOnEmpty := false,
    greetingDelayPos := false, localIdentity := some "agent", configuredKinds := none,
    targetIdentity := none }

/-- Broadcast configuration with terminate-on-empty enabled. -/
def cfgB : Config :=
  { broadcastMode := true, terminateOnEmpty := true, closeRoomOnEmpty := false,
    greetingDelayPos := false, localIdentity := some "agent", configuredKinds := none,
    targetIdentity := none }

/-- The racing schedule: a connect event spawns task 0; while task 0 is
suspended in the media wait (before anything marked `inflight`), a
reconciliation pass observes "alice" absent from both sets and spawns
task 1; both tasks then pass the `greeted` check and enter
`_send_greeting` concurrently. -/
def raceSchedule : List Action :=
  [Action.connectEvent alice, Action.runTask 0, Action.sweep, Action.runTask 1,
   Action.mediaDone 0 true, Action.proceed 0, Action.mediaDone 1 true, Action.proceed 1]

/-- The racing schedule continued: both greetings complete successfully. -/
def raceScheduleFull : List Action :=
  raceSchedule ++ [Action.greetDone 0 true, Action.greetDone 1 true]

/-- A state in which the single task for "alice" has just finished its
media wait and is about to run the greeted check. -/
def wPost : GState :=
  { room := [alice], greeted := [], inflight := [], linked := some "alice",
    target := some "alice", shutdownPending := false, firedCount := 0,
    tasks := [(0, "alice", TaskPhase.postMedia)], nextTid := 1,
    delivered := [], disconnectLog := [] }

/-- A state in which the task for "alice" is inflight and suspended
inside greeting delivery. -/
def wGreet : GState :=
  { wPost with inflight := ["alice"], tasks := [(0, "alice", TaskPhase.greeting)] }

/-- A state in which the task for "alice" is suspended in the media wait. -/
def wMedia : GState :=
  { wPost with tasks := [(0, "alice", TaskPhase.mediaWait)] }

/-- A state in which "alice" is linked and greeted and still the last
connected participant. -/
def wLinked : GState :=
  { room := [alice], greeted := ["alice"], inflight := [], linked := some "alice",
    target := some "alice", shutdownPending := false, firedCount := 0,
    tasks := [], nextTid := 1, delivered := ["alice"], disconnectLog := [] }

/-- An empty room with a shutdown task pending its grace delay. -/
def wEmptyPending : GState :=
  { room := [], greeted := [], inflight := [], linked := none, target := none,
    shutdownPending := true, firedCount := 0, tasks := [], nextTid := 0,
    delivered := [], disconnectLog := [] }

/-- A room whose only member carries no identity, with live registry
entries for other identities. -/
def wGhostRoom : GState :=
  { room := [ghost], greeted := ["alice"], inflight := ["bob"], linked := some "alice",
    target := some "alice", shutdownPending := false, firedCount := 2, tasks := [],
    nextTid := 3, delivered := ["alice"], disconnectLog := [] }

/-- Outcome script for `_send_greeting`: two retryable realtime timeouts,
then success. -/
def scriptW : Nat → AttemptOutcome := fun n =>
  match n with
  | 1 => AttemptOutcome.retryableTimeout
  | 2 => AttemptOutcome.retryableTimeout
  | _ => AttemptOutcome.ok

/-- The disjointness invariant of the membership registry: no identity is
in both `greeted` and `inflight`. -/
def SetsOk (s : GState) : Prop :=
  ∀ x, x ∈ s.greeted → x ∉ s.inflight

/-! ### Helper lemmas -/

theorem mem_insertId {l : List String} {id x : String} :
    x ∈ insertId l id ↔ x ∈ l ∨ x = id := by
  unfold insertId
  split
  next h =>
    constructor
    · exact Or.inl
    · rintro (hx | rfl)
      · exact hx
      · exact h
  next h =>
    simp [List.mem_append]

theorem mem_eraseId {l : List String} {id x : String} :
    x ∈ eraseId l id ↔ x ∈ l ∧ x ≠ id := by
  simp [eraseId, List.mem_filter, bne_iff_ne]

theorem hc_greeted (cfg : Config) (s : GState) (p : Participant) :
    (handle_participant_connected cfg s p).greeted = s.greeted := by
  unfold handle_participant_connected
  cases p.identity <;> simp only
  split_ifs <;> simp [spawn_task, set_participant]

theorem hc_inflight (cfg : Config) (s : GState) (p : Participant) :
    (handle_participant_connected cfg s p).inflight = s.inflight := by
  unfold handle_participant_connected
  cases p.identity <;> simp only
  split_ifs <;> simp [spawn_task, set_participant]

theorem hc_pending (cfg : Config) (s : GState) (p : Participant) :
    (handle_participant_connected cfg s p).shutdownPending = false := by
  unfold handle_participant_connected
  cases p.identity <;> simp only
  split_ifs <;> simp [spawn_task, set_participant]

theorem sweep_step_greeted (cfg : Config) (acc : GState) (p : Participant) :
    (sweep_step cfg acc p).greeted = acc.greeted := by
  unfold sweep_step
  cases p.identity <;> simp only
  split_ifs <;> simp [hc_greeted]

theorem sweep_step_inflight (cfg : Config) (acc : GState) (p : Participant) :
    (sweep_step cfg acc p).inflight = acc.inflight := by
  unfold sweep_step
  cases p.identity <;> simp only
  split_ifs <;> simp [hc_inflight]

theorem foldl_sweep_greeted (cfg : Config) :
    ∀ (l : List Participant) (acc : GState),
      (l.foldl (sweep_step cfg) acc).greeted = acc.greeted
  | [], _ => rfl
  | p :: rest, acc => by
    rw [List.foldl_cons, foldl_sweep_greeted cfg rest, sweep_step_greeted]

theorem foldl_sweep_inflight (cfg : Config) :
    ∀ (l : List Participant) (acc : GState),
      (l.foldl (sweep_step cfg) acc).inflight = acc.inflight
  | [], _ => rfl
  | p :: rest, acc => by
    rw [List.foldl_cons, foldl_sweep_inflight cfg rest, sweep_step_inflight]

theorem msd_greeted (cfg : Config) (s : GState) :
    (maybe_schedule_shutdown cfg s).greeted = s.greeted := by
  unfold maybe_schedule_shutdown
  split_ifs <;> rfl

theorem msd_inflight (cfg : Config) (s : GState) :
    (maybe_schedule_shutdown cfg s).inflight = s.inflight := by
  unfold maybe_schedule_shutdown
  split_ifs <;> rfl

theorem msd_room (cfg : Config) (s : GState) :
    (maybe_schedule_shutdown cfg s).room = s.room := by
  unfold maybe_schedule_shutdown
  split_ifs <;> rfl

theorem setsOk_hd (cfg : Config) (s : GState) (p : Participant) (h : SetsOk s) :
    SetsOk (handle_participant_disconnected cfg s p) := by
  unfold handle_participant_disconnected
  cases hid : p.identity with
  | none => exact h
  | some id =>
    simp only
    have key : ∀ t : GState, t.greeted = eraseId s.greeted id →
        t.inflight = eraseId s.inflight id → SetsOk t := by
      intro t hg hi x hx
      rw [hg, mem_eraseId] at hx
      rw [hi, mem_eraseId]
      exact fun hc => h x hx.1 hc.1
    split
    · exact key _ rfl rfl
    · split
      · exact key _ (by rw [msd_greeted]) (by rw [msd_inflight])
      · exact key _ (by rw [msd_greeted]) (by rw [msd_inflight])

theorem setsOk_step (cfg : Config) (s : GState) (a : Action) (h : SetsOk s) :
    SetsOk (step cfg s a) := by
  cases a with
  | connectEvent p =>
    intro x hx
    rw [show (step cfg s (Action.connectEvent p)).greeted = s.greeted from by
      simp [step, hc_greeted]] at hx
    rw [show (step cfg s (Action.connectEvent p)).inflight = s.inflight from by
      simp [step, hc_inflight]]
    exact h x hx
  | disconnectEvent p =>
    exact setsOk_hd cfg _ p (fun x hx => h x hx)
  | sweep =>
    intro x hx
    rw [show (step cfg s Action.sweep).greeted = s.greeted from
      foldl_sweep_greeted cfg s.room s] at hx
    rw [show (step cfg s Action.sweep).inflight = s.inflight from
      foldl_sweep_inflight cfg s.room s]
    exact h x hx
  | runTask tid =>
    show SetsOk (step_run_task s tid)
    unfold step_run_task
    split <;> exact h
  | mediaDone tid ok =>
    show SetsOk (step_media_done s tid ok)
    unfold step_media_done
    split <;> exact h
  | proceed tid =>
    show SetsOk (step_proceed cfg s tid)
    unfold step_proceed
    split
    next id _ heq =>
      split_ifs with hg hd
      · exact h
      · intro x hx hmem
        rw [mem_insertId] at hmem
        rcases hmem with hmem | rfl
        · exact h x hx hmem
        · exact hg hx
      · intro x hx hmem
        rw [mem_insertId] at hmem
        rcases hmem with hmem | rfl
        · exact h x hx hmem
        · exact hg hx
    next => exact h
  | delayDone tid =>
    show SetsOk (step_delay_done s tid)
    unfold step_delay_done
    split <;> exact h
  | greetDone tid ok =>
    show SetsOk (step_greet_done s tid ok)
    unfold step_greet_done
    split
    next id _ heq =>
      split_ifs with hok
      · intro x hx hmem
        rw [mem_insertId] at hx
        rw [mem_eraseId] at hmem
        rcases hx with hx | rfl
        · exact h x hx hmem.1
        · exact hmem.2 rfl
      · intro x hx hmem
        rw [mem_eraseId] at hmem
        exact h x hx hmem.1
    next => exact h
  | shutdownElapsed =>
    show SetsOk (step_shutdown_elapsed s)
    unfold step_shutdown_elapsed
    split_ifs <;> exact h

theorem setsOk_run (cfg : Config) :
    ∀ (acts : List Action) (s : GState), SetsOk s → SetsOk (run cfg s acts)
  | [], _, h => h
  | a :: rest, s, h =>
    setsOk_run cfg rest (step cfg s a) (setsOk_step cfg s a h)

theorem findTask?_setPhase (tid : Nat) (ph : TaskPhase) :
    ∀ ts : List (Nat × String × TaskPhase),
      findTask? (setPhase ts tid ph) tid
        = (findTask? ts tid).map (fun x => (x.1, ph))
  | [] => rfl
  | t :: rest => by
    have ih := findTask?_setPhase tid ph rest
    show findTask? ((if t.1 == tid then (t.1, t.2.1, ph) else t) :: setPhase rest tid ph) tid
        = (findTask? (t :: rest) tid).map (fun x => (x.1, ph))
    by_cases h : (t.1 == tid) = true
    · rw [if_pos h]
      unfold findTask?
      rw [List.find?_cons_of_pos (a := (t.1, t.2.1, ph)) _ h,
        List.find?_cons_of_pos (a := t) _ h]
      rfl
    · rw [if_neg h]
      unfold findTask?
      rw [List.find?_cons_of_neg (a := t) _ h, List.find?_cons_of_neg (a := t) _ h]
      exact ih

/-- Resuming a task from the post-media-wait suspension when its identity
is not yet greeted marks the identity `inflight` and moves the task to
the pre-greeting delay or into greeting delivery. -/
theorem proceed_marks (cfg : Config) (s : GState) (tid : Nat) (id : String)
    (ht : taskOf s tid = some (id, TaskPhase.postMedia)) (hg : id ∉ s.greeted) :
    id ∈ (step_proceed cfg s tid).inflight ∧
      (taskOf (step_proceed cfg s tid) tid = some (id, TaskPhase.delayWait) ∨
       taskOf (step_proceed cfg s tid) tid = some (id, TaskPhase.greeting)) := by
  have ht' : findTask? s.tasks tid = some (id, TaskPhase.postMedia) := ht
  unfold step_proceed
  rw [ht']
  simp only [if_neg hg]
  split_ifs with hd
  · refine ⟨mem_insertId.mpr (Or.inr rfl), Or.inl ?_⟩
    show findTask? (setPhase s.tasks tid TaskPhase.delayWait) tid = _
    rw [findTask?_setPhase, ht']
    rfl
  · refine ⟨mem_insertId.mpr (Or.inr rfl), Or.inr ?_⟩
    show findTask? (setPhase s.tasks tid TaskPhase.greeting) tid = _
    rw [findTask?_setPhase, ht']
    rfl

/-- When a greeting attempt concludes — success or failure — the task's
identity is discarded from `inflight` and the task finishes. -/
theorem greet_done_clears (s : GState) (tid : Nat) (id : String) (ok : Bool)
    (ht : taskOf s tid = some (id, TaskPhase.greeting)) :
    id ∉ (step_greet_done s tid ok).inflight ∧
      taskOf (step_greet_done s tid ok) tid = some (id, TaskPhase.finished) := by
  have ht' : findTask? s.tasks tid = some (id, TaskPhase.greeting) := ht
  unfold step_greet_done
  rw [ht']
  split_ifs with hok
  · constructor
    · intro hmem
      exact (mem_eraseId.mp hmem).2 rfl
    · show findTask? (setPhase s.tasks tid TaskPhase.finished) tid = _
      rw [findTask?_setPhase, ht']
      rfl
  · constructor
    · intro hmem
      exact (mem_eraseId.mp hmem).2 rfl
    · show findTask? (setPhase s.tasks tid TaskPhase.finished) tid = _
      rw [findTask?_setPhase, ht']
      rfl

/-- The conclusion of the media wait moves the task to the post-media
block whatever the outcome was, and changes nothing else the greeting
decision depends on. -/
theorem media_done_phase (s : GState) (tid : Nat) (id : String) (ok : Bool)
    (ht : taskOf s tid = some (id, TaskPhase.mediaWait)) :
    taskOf (step_media_done s tid ok) tid = some (id, TaskPhase.postMedia) ∧
      (step_media_done s tid ok).greeted = s.greeted := by
  have ht' : findTask? s.tasks tid = some (id, TaskPhase.mediaWait) := ht
  unfold step_media_done
  rw [ht']
  constructor
  · show findTask? (setPhase s.tasks tid TaskPhase.postMedia) tid = _
    rw [findTask?_setPhase, ht']
    rfl
  · rfl

/-- A disconnect for a participant without an identity leaves the whole
state untouched (the handler returns at its first check). -/
theorem hd_noid (cfg : Config) (t : GState) (p : Participant)
    (hid : p.identity = none) :
    handle_participant_disconnected cfg t p = t := by
  unfold handle_participant_disconnected
  rw [hid]

/-- A disconnect observed while no participant is linked skips shutdown
evaluation: the pending flag is unchanged. -/
theorem hd_pending_nolink (cfg : Config) (t : GState) (p : Participant) (id : String)
    (hid : p.identity = some id) (hl : t.linked = none) :
    (handle_participant_disconnected cfg t p).shutdownPending = t.shutdownPending := by
  unfold handle_participant_disconnected
  rw [hid]
  simp only [hl]

/-- A disconnect observed while some participant is linked runs shutdown
evaluation: afterwards a task is pending exactly if one already was, or
the feature is enabled and no connected participants remain. -/
theorem hd_pending (cfg : Config) (t : GState) (p : Participant) (id lid : String)
    (hid : p.identity = some id) (hl : t.linked = some lid) :
    (handle_participant_disconnected cfg t p).shutdownPending =
      (t.shutdownPending ||
        (cfg.terminateOnEmpty && (connectedParticipants t).isEmpty)) := by
  unfold handle_participant_disconnected
  rw [hid]
  simp only [hl]
  unfold maybe_schedule_shutdown
  by_cases hle : lid = id <;>
    split_ifs <;>
      simp_all [connectedParticipants, Bool.not_eq_false, Bool.not_eq_true]

/-- The connect handler ignores a self publish-on-behalf stream or a
disallowed kind: the only effect is cancelling any pending shutdown. -/
theorem hc_ignored (cfg : Config) (t : GState) (p : Participant) (id : String)
    (hid : p.identity = some id)
    (h : p.publishOnBehalf = cfg.localIdentity ∨ p.kind ∉ allowedKinds cfg) :
    handle_participant_connected cfg t p = { t with shutdownPending := false } := by
  unfold handle_participant_connected
  simp only [hid]
  by_cases ha : p.publishOnBehalf = cfg.localIdentity
  · rw [if_pos ha]
  · rw [if_neg ha]
    rcases h with h | h
    · exact absurd h ha
    · rw [if_pos h]

/-- The connect handler, when the filters pass and the should-follow
disjunction holds, narrows the link unless in broadcast mode and spawns
the initialization task. -/
theorem hc_followed (cfg : Config) (t : GState) (p : Participant) (id : String)
    (hid : p.identity = some id)
    (h1 : p.publishOnBehalf ≠ cfg.localIdentity) (h2 : p.kind ∈ allowedKinds cfg)
    (h3 : t.linked = none ∨ t.linked = some id ∨ t.target = none ∨ t.target = some id) :
    handle_participant_connected cfg t p =
      spawn_task
        (if cfg.broadcastMode then { t with shutdownPending := false }
         else set_participant { t with shutdownPending := false } id) id := by
  unfold handle_participant_connected
  simp only [hid]
  rw [if_neg h1, if_neg (not_not_intro h2), if_pos h3]

/-- The connect handler, when the filters pass but the should-follow
disjunction fails, only cancels any pending shutdown. -/
theorem hc_notfollowed (cfg : Config) (t : GState) (p : Participant) (id : String)
    (hid : p.identity = some id)
    (h1 : p.publishOnBehalf ≠ cfg.localIdentity) (h2 : p.kind ∈ allowedKinds cfg)
    (h3 : ¬(t.linked = none ∨ t.linked = some id ∨ t.target = none ∨ t.target = some id)) :
    handle_participant_connected cfg t p = { t with shutdownPending := false } := by
  unfold handle_participant_connected
  simp only [hid]
  rw [if_neg h1, if_neg (not_not_intro h2), if_neg h3]

/-! ### Claims -/

/-- C1 counterexample: after "alice" connects and her initialization task
begins running, the task is suspended at the media-readiness wait — a
suspension point — while "alice" is not a member of `inflight`, so the
identity is not added to `inflight` before the initialization task
reaches its first suspension point. -/
theorem c1_counterexample :
    taskOf (run cfgA (initState cfgA) [Action.connectEvent alice, Action.runTask 0]) 0
        = some ("alice", TaskPhase.mediaWait) ∧
    "alice" ∉
      (run cfgA (initState cfgA) [Action.connectEvent alice, Action.runTask 0]).inflight := by
  decide

/-- C1 (amended): the identity enters `inflight` only after the
media-readiness wait has concluded — in the synchronous block that also
checks `greeted` — and from there the task moves to the pre-greeting
delay or into greeting delivery; when the greeting attempt concludes,
successfully or not, the identity is discarded from `inflight` and the
task finishes. -/
theorem c1_theorem :
    (∀ (cfg : Config) (s : GState) (tid : Nat) (id : String),
        taskOf s tid = some (id, TaskPhase.postMedia) → id ∉ s.greeted →
          id ∈ (step_proceed cfg s tid).inflight ∧
            (taskOf (step_proceed cfg s tid) tid = some (id, TaskPhase.delayWait) ∨
             taskOf (step_proceed cfg s tid) tid = some (id, TaskPhase.greeting))) ∧
    (∀ (s : GState) (tid : Nat) (id : String) (ok : Bool),
        taskOf s tid = some (id, TaskPhase.greeting) →
          id ∉ (step_greet_done s tid ok).inflight ∧
            taskOf (step_greet_done s tid ok) tid = some (id, TaskPhase.finished)) :=
  ⟨fun cfg s tid id ht hg => proceed_marks cfg s tid id ht hg,
   fun s tid id ok ht => greet_done_clears s tid id ok ht⟩

/-- C1 witness: the amended claim applied to concrete states in which the
task for "alice" sits at the post-media block and inside greeting
delivery. -/
theorem c1_witness :
    ("alice" ∈ (step_proceed cfgA wPost 0).inflight ∧
      (taskOf (step_proceed cfgA wPost 0) 0 = some ("alice", TaskPhase.delayWait) ∨
       taskOf (step_proceed cfgA wPost 0) 0 = some ("alice", TaskPhase.greeting))) ∧
    ("alice" ∉ (step_greet_done wGreet 0 true).inflight ∧
      taskOf (step_greet_done wGreet 0 true) 0 = some ("alice", TaskPhase.finished)) :=
  ⟨c1_theorem.1 cfgA wPost 0 "alice" (by decide) (by decide),
   c1_theorem.2 wGreet 0 "alice" true (by decide)⟩

/-- C2 counterexample: with terminate-on-empty enabled and broadcast mode
on, "alice" connects (nothing is ever linked in broadcast mode) and then
disconnects as the last participant.  The feature is enabled, the
post-disconnect connected count is zero and no shutdown task is pending,
yet no shutdown task is scheduled: the handler returned at its
`linked is None` check before ever evaluating the shutdown scheduler, so
evaluation does not run on every disconnect event. -/
theorem c2_counterexample :
    cfgB.terminateOnEmpty = true ∧
    (run cfgB (initState cfgB)
        [Action.connectEvent alice, Action.disconnectEvent alice]).disconnectLog
      = ["alice"] ∧
    connectedParticipants
        (run cfgB (initState cfgB)
          [Action.connectEvent alice, Action.disconnectEvent alice]) = [] ∧
    (run cfgB (initState cfgB)
        [Action.connectEvent alice, Action.disconnectEvent alice]).shutdownPending
      = false := by
  decide

/-- C2 (amended): shutdown-scheduler evaluation runs on those disconnect
events whose participant carries an identity and for which some
participant is linked at the time of the event; when it runs, a
shutdown task is pending afterwards exactly if one already was, or the
feature is enabled and the post-disconnect connected-participant count is
zero. -/
theorem c2_theorem (cfg : Config) (s : GState) (p : Participant) (id lid : String)
    (hid : p.identity = some id) (hl : s.linked = some lid) :
    (step cfg s (Action.disconnectEvent p)).shutdownPending =
      (s.shutdownPending ||
        (cfg.terminateOnEmpty &&
          (connectedParticipants { s with room := s.room.erase p }).isEmpty)) :=
  hd_pending cfg _ p id lid hid hl

/-- C2 witness: the amended claim applied to the last linked participant
"alice" disconnecting with terminate-on-empty enabled. -/
theorem c2_witness :
    (step cfgB wLinked (Action.disconnectEvent alice)).shutdownPending =
      (wLinked.shutdownPending ||
        (cfgB.terminateOnEmpty &&
          (connectedParticipants { wLinked with room := wLinked.room.erase alice }).isEmpty)) :=
  c2_theorem cfgB wLinked alice "alice" "alice" rfl rfl

/-- C4: a connect event unconditionally cancels any pending shutdown task
before everything else — even when the participant is later rejected by
the filters; a disconnect event newly schedules a shutdown task only when
the feature is enabled and the post-disconnect connected count is zero;
and the shutdown signal fires only from a pending task whose re-check
after the grace delay still sees zero connected participants. -/
theorem c4_theorem :
    (∀ (cfg : Config) (s : GState) (p : Participant),
        (step cfg s (Action.connectEvent p)).shutdownPending = false) ∧
    (∀ (cfg : Config) (s : GState) (p : Participant),
        s.shutdownPending = false →
        (step cfg s (Action.disconnectEvent p)).shutdownPending = true →
          cfg.terminateOnEmpty = true ∧
            (connectedParticipants { s with room := s.room.erase p }).isEmpty = true) ∧
    (∀ (cfg : Config) (s : GState),
        s.firedCount < (step cfg s Action.shutdownElapsed).firedCount →
          s.shutdownPending = true ∧ (connectedParticipants s).isEmpty = true) := by
  refine ⟨?_, ?_, ?_⟩
  · intro cfg s p
    exact hc_pending cfg _ p
  · intro cfg s p h0 h1
    cases hid : p.identity with
    | none =>
      rw [show (step cfg s (Action.disconnectEvent p)).shutdownPending = s.shutdownPending from by
        rw [show step cfg s (Action.disconnectEvent p)
            = handle_participant_disconnected cfg
                { s with room := s.room.erase p,
                         disconnectLog :=
                           match p.identity with
                           | some id => s.disconnectLog ++ [id]
                           | none => s.disconnectLog } p from rfl, hd_noid cfg _ p hid]] at h1
      exact absurd (h0.symm.trans h1) (by simp)
    | some id =>
      cases hl : s.linked with
      | none =>
        rw [show (step cfg s (Action.disconnectEvent p)).shutdownPending = s.shutdownPending from
          hd_pending_nolink cfg _ p id hid hl] at h1
        exact absurd (h0.symm.trans h1) (by simp)
      | some lid =>
        have hp := hd_pending cfg
          { s with room := s.room.erase p,
                   disconnectLog :=
                     match p.identity with
                     | some id2 => s.disconnectLog ++ [id2]
                     | none => s.disconnectLog } p id lid hid hl
        rw [show (step cfg s (Action.disconnectEvent p)).shutdownPending
            = (handle_participant_disconnected cfg
                { s with room := s.room.erase p,
                         disconnectLog :=
                           match p.identity with
                           | some id2 => s.disconnectLog ++ [id2]
                           | none => s.disconnectLog } p).shutdownPending from rfl, hp, h0] at h1
        simpa [connectedParticipants] using h1
  · intro cfg s h
    have h' : s.firedCount < (step_shutdown_elapsed s).firedCount := h
    unfold step_shutdown_elapsed at h'
    split_ifs at h' with h1 h2
    · exact absurd h' (lt_irrefl _)
    · cases hb : s.shutdownPending with
      | false => exact absurd hb h1
      | true => exact ⟨rfl, h2⟩
    · exact absurd h' (lt_irrefl _)

/-- C4 witness: a connect event from a participant the filters reject
still cancels the pending shutdown task; the last linked participant
disconnecting schedules one; and a fired shutdown presupposes a pending
task over an empty room. -/
theorem c4_witness :
    (step cfgB wEmptyPending (Action.connectEvent selfStream)).shutdownPending = false ∧
    (cfgB.terminateOnEmpty = true ∧
      (connectedParticipants { wLinked with room := wLinked.room.erase alice }).isEmpty = true) ∧
    (wEmptyPending.shutdownPending = true ∧
      (connectedParticipants wEmptyPending).isEmpty = true) :=
  ⟨c4_theorem.1 cfgB wEmptyPending selfStream,
   c4_theorem.2.1 cfgB wLinked alice (by decide) (by decide),
   c4_theorem.2.2 cfgB wEmptyPending (by decide)⟩

/-- C3: the claimed serialization fails.  In the racing schedule a
connect event spawns task 0 for "alice"; while task 0 is suspended in the
media wait (with `inflight` still empty) a reconciliation pass observes
"alice" absent from both `greeted` and `inflight` and spawns task 1; both
tasks then run concurrently inside greeting delivery, and two greetings
are delivered to "alice" within a single connected episode (no disconnect
event occurs). -/
theorem c3_theorem :
    taskOf (run cfgA (initState cfgA) raceSchedule) 0 = some ("alice", TaskPhase.greeting) ∧
    taskOf (run cfgA (initState cfgA) raceSchedule) 1 = some ("alice", TaskPhase.greeting) ∧
    (run cfgA (initState cfgA) raceScheduleFull).delivered = ["alice", "alice"] ∧
    (run cfgA (initState cfgA) raceScheduleFull).disconnectLog = [] := by
  decide

/-- C5: at every observable point of every schedule from session start,
no identity is simultaneously in `greeted` and `inflight` — every
operation of the orchestrator preserves the disjointness of the two
registries. -/
theorem c5_theorem (cfg : Config) (acts : List Action) :
    (run cfg (initState cfg) acts).greeted ∩
        (run cfg (initState cfg) acts).inflight = [] := by
  rw [List.inter_eq_nil_iff_disjoint]
  intro x hx hmem
  exact setsOk_run cfg acts (initState cfg)
    (fun _ hy => absurd hy (List.not_mem_nil _)) x hx hmem

/-- C6: the greeting deliverer makes at most 3 attempts; two retryable
realtime timeouts followed by success mean the third attempt succeeds
via the fallback direct-speech path and the function reports delivery;
a non-retryable failure aborts immediately at whichever attempt it
occurs; exhausting all attempts on retryable failures reports failure. -/
theorem c6_theorem (script : Nat → AttemptOutcome) :
    (script 1 = AttemptOutcome.retryableTimeout →
        script 2 = AttemptOutcome.retryableTimeout →
        script 3 = AttemptOutcome.ok →
        send_greeting script = GreetResult.delivered 3 true) ∧
    (script 1 = AttemptOutcome.fatal →
        send_greeting script = GreetResult.failedFatal 1) ∧
    (script 1 = AttemptOutcome.retryableTimeout → script 2 = AttemptOutcome.fatal →
        send_greeting script = GreetResult.failedFatal 2) ∧
    (script 1 = AttemptOutcome.retryableTimeout →
        script 2 = AttemptOutcome.retryableTimeout →
        script 3 = AttemptOutcome.fatal →
        send_greeting script = GreetResult.failedFatal 3) ∧
    (script 1 = AttemptOutcome.retryableTimeout →
        script 2 = AttemptOutcome.retryableTimeout →
        script 3 = AttemptOutcome.retryableTimeout →
        send_greeting script = GreetResult.failedExhausted 3) ∧
    attemptOf (send_greeting script) ≤ 3 := by
  refine ⟨?_, ?_, ?_, ?_, ?_, ?_⟩
  · intro h1 h2 h3
    simp [send_greeting, greetLoop, h1, h2, h3]
  · intro h1
    simp [send_greeting, greetLoop, h1]
  · intro h1 h2
    simp [send_greeting, greetLoop, h1, h2]
  · intro h1 h2 h3
    simp [send_greeting, greetLoop, h1, h2, h3]
  · intro h1 h2 h3
    simp [send_greeting, greetLoop, h1, h2, h3]
  · cases h1 : script 1 <;> cases h2 : script 2 <;> cases h3 : script 3 <;>
      simp [send_greeting, greetLoop, attemptOf, h1, h2, h3]

/-- C6 witness: the scripted run with two retryable timeouts then
success is delivered on the third attempt via the fallback path. -/
theorem c6_witness :
    send_greeting scriptW = GreetResult.delivered 3 true :=
  (c6_theorem scriptW).1 rfl rfl rfl

/-- C7: a media-readiness timeout is non-fatal — after the wait concludes
with the timeout outcome, the task still reaches the post-media block,
and (when the identity is not already greeted) proceeds into the
pre-greeting delay or the greeting delivery itself; a concluded greeting
always finishes the task, so the readiness timeout alone never prevents
the task from terminating or the greeting from being attempted. -/
theorem c7_theorem (cfg : Config) (s : GState) (tid : Nat) (id : String)
    (h : taskOf s tid = some (id, TaskPhase.mediaWait)) :
    taskOf (step cfg s (Action.mediaDone tid false)) tid
        = some (id, TaskPhase.postMedia) ∧
    (id ∉ s.greeted →
      (taskOf (step cfg (step cfg s (Action.mediaDone tid false)) (Action.proceed tid)) tid
          = some (id, TaskPhase.delayWait) ∨
       taskOf (step cfg (step cfg s (Action.mediaDone tid false)) (Action.proceed tid)) tid
          = some (id, TaskPhase.greeting))) ∧
    (∀ (s2 : GState) (ok : Bool), taskOf s2 tid = some (id, TaskPhase.greeting) →
        taskOf (step cfg s2 (Action.greetDone tid ok)) tid
          = some (id, TaskPhase.finished)) := by
  obtain ⟨h1, h2⟩ := media_done_phase s tid id false h
  refine ⟨h1, ?_, ?_⟩
  · intro hg
    have hg' : id ∉ (step_media_done s tid false).greeted := by
      rw [h2]
      exact hg
    exact (proceed_marks cfg (step_media_done s tid false) tid id h1 hg').2
  · intro s2 ok ht
    exact (greet_done_clears s2 tid id ok ht).2

/-- C7 witness: the timeout path applied to a concrete state whose task
for "alice" is suspended in the media wait, and a concrete greeting
conclusion. -/
theorem c7_witness :
    taskOf (step cfgA wMedia (Action.mediaDone 0 false)) 0
        = some ("alice", TaskPhase.postMedia) ∧
    (taskOf (step cfgA (step cfgA wMedia (Action.mediaDone 0 false)) (Action.proceed 0)) 0
        = some ("alice", TaskPhase.delayWait) ∨
     taskOf (step cfgA (step cfgA wMedia (Action.mediaDone 0 false)) (Action.proceed 0)) 0
        = some ("alice", TaskPhase.greeting)) ∧
    taskOf (step cfgA wGreet (Action.greetDone 0 true)) 0
        = some ("alice", TaskPhase.finished) :=
  ⟨(c7_theorem cfgA wMedia 0 "alice" (by decide)).1,
   (c7_theorem cfgA wMedia 0 "alice" (by decide)).2.1 (by decide),
   (c7_theorem cfgA wMedia 0 "alice" (by decide)).2.2 wGreet true (by decide)⟩

/-- C8: for every connect event of an identified participant — a self
publish-on-behalf stream or a disallowed kind is ignored (no link change,
no task spawned); otherwise an initialization task is spawned exactly
when nobody is linked, the linked identity matches, the configured target
is unset, or the configured target matches; and in broadcast mode the
link target is never narrowed. -/
theorem c8_theorem (cfg : Config) (s : GState) (p : Participant) (id : String)
    (hid : p.identity = some id) :
    ((p.publishOnBehalf = cfg.localIdentity ∨ p.kind ∉ allowedKinds cfg) →
        (step cfg s (Action.connectEvent p)).tasks = s.tasks ∧
        (step cfg s (Action.connectEvent p)).linked = s.linked ∧
        (step cfg s (Action.connectEvent p)).target = s.target) ∧
    (p.publishOnBehalf ≠ cfg.localIdentity → p.kind ∈ allowedKinds cfg →
        ((s.linked = none ∨ s.linked = some id ∨ s.target = none ∨ s.target = some id) →
            (step cfg s (Action.connectEvent p)).tasks
              = s.tasks ++ [(s.nextTid, id, TaskPhase.created)]) ∧
        (¬(s.linked = none ∨ s.linked = some id ∨ s.target = none ∨ s.target = some id) →
            (step cfg s (Action.connectEvent p)).tasks = s.tasks ∧
            (step cfg s (Action.connectEvent p)).linked = s.linked ∧
            (step cfg s (Action.connectEvent p)).target = s.target)) ∧
    (cfg.broadcastMode = true →
        (step cfg s (Action.connectEvent p)).linked = s.linked ∧
        (step cfg s (Action.connectEvent p)).target = s.target) := by
  refine ⟨?_, ?_, ?_⟩
  · intro h
    rw [show step cfg s (Action.connectEvent p)
        = handle_participant_connected cfg { s with room := s.room ++ [p] } p from rfl,
      hc_ignored cfg _ p id hid h]
    exact ⟨rfl, rfl, rfl⟩
  · intro h1 h2
    constructor
    · intro h3
      rw [show step cfg s (Action.connectEvent p)
          = handle_participant_connected cfg { s with room := s.room ++ [p] } p from rfl,
        hc_followed cfg { s with room := s.room ++ [p] } p id hid h1 h2 h3]
      by_cases hbc : cfg.broadcastMode <;> simp [hbc, spawn_task, set_participant]
    · intro h3
      rw [show step cfg s (Action.connectEvent p)
          = handle_participant_connected cfg { s with room := s.room ++ [p] } p from rfl,
        hc_notfollowed cfg { s with room := s.room ++ [p] } p id hid h1 h2 h3]
      exact ⟨rfl, rfl, rfl⟩
  · intro hbc
    by_cases ha : p.publishOnBehalf = cfg.localIdentity
    · rw [show step cfg s (Action.connectEvent p)
          = handle_participant_connected cfg { s with room := s.room ++ [p] } p from rfl,
        hc_ignored cfg _ p id hid (Or.inl ha)]
      exact ⟨rfl, rfl⟩
    · by_cases hb : p.kind ∈ allowedKinds cfg
      · by_cases hf : s.linked = none ∨ s.linked = some id ∨ s.target = none ∨ s.target = some id
        · rw [show step cfg s (Action.connectEvent p)
              = handle_participant_connected cfg { s with room := s.room ++ [p] } p from rfl,
            hc_followed cfg { s with room := s.room ++ [p] } p id hid ha hb hf]
          simp [hbc, spawn_task, set_participant]
        · rw [show step cfg s (Action.connectEvent p)
              = handle_participant_connected cfg { s with room := s.room ++ [p] } p from rfl,
            hc_notfollowed cfg { s with room := s.room ++ [p] } p id hid ha hb hf]
          exact ⟨rfl, rfl⟩
      · rw [show step cfg s (Action.connectEvent p)
            = handle_participant_connected cfg { s with room := s.room ++ [p] } p from rfl,
          hc_ignored cfg _ p id hid (Or.inr hb)]
        exact ⟨rfl, rfl⟩

/-- C8 witness: the self publish-on-behalf stream is ignored; "alice"
connecting with nothing linked and no configured target spawns a task;
and in broadcast mode the link stays untouched. -/
theorem c8_witness :
    ((step cfgA (initState cfgA) (Action.connectEvent selfStream)).tasks
        = (initState cfgA).tasks ∧
      (step cfgA (initState cfgA) (Action.connectEvent selfStream)).linked
        = (initState cfgA).linked ∧
      (step cfgA (initState cfgA) (Action.connectEvent selfStream)).target
        = (initState cfgA).target) ∧
    (step cfgA (initState cfgA) (Action.connectEvent alice)).tasks
      = (initState cfgA).tasks ++ [((initState cfgA).nextTid, "alice", TaskPhase.created)] ∧
    ((step cfgB (initState cfgB) (Action.connectEvent alice)).linked
        = (initState cfgB).linked ∧
      (step cfgB (initState cfgB) (Action.connectEvent alice)).target
        = (initState cfgB).target) :=
  ⟨(c8_theorem cfgA (initState cfgA) selfStream "forwarder" rfl).1 (Or.inl rfl),
   ((c8_theorem cfgA (initState cfgA) alice "alice" rfl).2.1 (by decide) (by decide)).1
     (Or.inl rfl),
   (c8_theorem cfgB (initState cfgB) alice "alice" rfl).2.2 rfl⟩

/-- C10: a disconnect event whose participant has no identity leaves the
greeted and inflight registries, the link target, the shutdown state and
all task bookkeeping untouched — even when that participant was the last
one in the room. -/
theorem c10_theorem (cfg : Config) (s : GState) (p : Participant)
    (hid : p.identity = none) :
    (step cfg s (Action.disconnectEvent p)).greeted = s.greeted ∧
    (step cfg s (Action.disconnectEvent p)).inflight = s.inflight ∧
    (step cfg s (Action.disconnectEvent p)).linked = s.linked ∧
    (step cfg s (Action.disconnectEvent p)).target = s.target ∧
    (step cfg s (Action.disconnectEvent p)).shutdownPending = s.shutdownPending ∧
    (step cfg s (Action.disconnectEvent p)).firedCount = s.firedCount ∧
    (step cfg s (Action.disconnectEvent p)).tasks = s.tasks ∧
    (step cfg s (Action.disconnectEvent p)).delivered = s.delivered := by
  rw [show step cfg s (Action.disconnectEvent p)
      = handle_participant_disconnected cfg
          { s with room := s.room.erase p,
                   disconnectLog :=
                     match p.identity with
                     | some id => s.disconnectLog ++ [id]
                     | none => s.disconnectLog } p from rfl,
    hd_noid cfg _ p hid]
  exact ⟨rfl, rfl, rfl, rfl, rfl, rfl, rfl, rfl⟩

/-- C10 witness: the identity-less participant `ghost` disconnecting as
the last room member, with terminate-on-empty enabled, changes nothing:
in particular no shutdown task is scheduled. -/
theorem c10_witness :
    (step cfgB wGhostRoom (Action.disconnectEvent ghost)).greeted = wGhostRoom.greeted ∧
    (step cfgB wGhostRoom (Action.disconnectEvent ghost)).inflight = wGhostRoom.inflight ∧
    (step cfgB wGhostRoom (Action.disconnectEvent ghost)).linked = wGhostRoom.linked ∧
    (step cfgB wGhostRoom (Action.disconnectEvent ghost)).target = wGhostRoom.target ∧
    (step cfgB wGhostRoom (Action.disconnectEvent ghost)).shutdownPending
      = wGhostRoom.shutdownPending ∧
    (step cfgB wGhostRoom (Action.disconnectEvent ghost)).firedCount
      = wGhostRoom.firedCount ∧
    (step cfgB wGhostRoom (Action.disconnectEvent ghost)).tasks = wGhostRoom.tasks ∧
    (step cfgB wGhostRoom (Action.disconnectEvent ghost)).delivered
      = wGhostRoom.delivered :=
  c10_theorem cfgB wGhostRoom ghost rfl

/-- C9: the reconciliation loop does not survive an unexpected exception.
With three scheduled passes of which the second raises, only two passes
execute: the `except Exception` handler sits outside the `while` loop, so
it logs, sleeps one interval and returns, ending the periodic sweep. -/
theorem c9_theorem :
    poll_passes_executed
        [PassOutcome.normal, PassOutcome.raisesUnexpected, PassOutcome.normal] = 2 ∧
    [PassOutcome.normal, PassOutcome.raisesUnexpected, PassOutcome.normal].length = 3 := by
  decide

end VoiceAgent
